import Mathlib

/-!
Verification of the Redfish verified-data proof pipeline against its
natural-language specification.

The Python sources (`hybrid_proof_pipeline_fixed.py`,
`generate_hybrid_input.py`, and the stage scripts under `ezkl/scripts/`)
are shallowly embedded below:

* pure Python functions become Lean functions;
* a raised Python exception becomes an `Except` error value;
* Python `float` arithmetic is modelled exactly on `ℚ` where the spec
  speaks about exact values, and — where a claim is about IEEE-754
  precision of the decode stage — by an explicit round-to-nearest-even
  function with a 53-bit significand (`pyFloat`);
* calls into the external `ezkl` module are recorded as entries of a
  call trace, with their outcomes supplied by a service parameter;
* the byte-level ABI codec used by `eth_abi.decode` is abstracted to the
  typed field list it yields, checked against the fixed 6-field schema.
-/

namespace Redfish

/-- Failure of a Python call into the external `ezkl` module: `typeError`
models a raised `TypeError` (calling-convention / signature mismatch),
`otherError` models any other raised exception (computation failure). -/
inductive PyErr where
  | typeError
  | otherError
deriving DecidableEq

/-- One typed field produced by `eth_abi.decode`.  The byte-level ABI
codec is abstracted to the field list it yields; `bytes32` payloads are
modelled by their numeric value. -/
inductive JournalField where
  | bytes32 (v : ℕ)
  | strF (s : String)
  | uint256 (n : ℕ)
deriving DecidableEq

/-- The `data` sub-object of a vlayer proof JSON file.  A `none` field
models that the JSON key is absent, so that a Python access raises
`KeyError`. -/
structure ProofData where
  journalDataAbi : Option (List JournalField)
  zkProof : Option String
deriving DecidableEq

/-- A vlayer attestation as loaded from JSON by `decode_vlayer_proof`:
the envelope `success` flag (`none` models an absent key, read through
`proof.get` which yields a falsy `None`) and the `data` sub-object. -/
structure Attestation where
  success : Option Bool
  data : Option ProofData
deriving DecidableEq

/-- The ways `decode_vlayer_proof` terminates exceptionally, named after
the spec's `DecodeError` taxonomy: `unverifiedAttestation` is the
`ValueError` raised when the success flag is falsy, `malformed` is a
`KeyError` on a missing JSON key or an `int()` parse failure, and
`schemaMismatch` is an `eth_abi` failure against the 6-field schema. -/
inductive DecodeError where
  | unverifiedAttestation
  | malformed
  | schemaMismatch
deriving DecidableEq

/-- Decimal digits to a natural number; `none` on an empty string or a
non-digit, mirroring Python `int()` raising `ValueError`. -/
def digitsToNat (cs : List Char) : Option ℕ :=
  if cs = [] then none
  else
    cs.foldl
      (fun acc c =>
        match acc with
        | none => none
        | some n => if c.isDigit then some (10 * n + (c.toNat - 48)) else none)
      (some 0)

/-- Python `int(s)` on a decimal string: an optional sign followed by
digits, evaluating to an arbitrary-precision integer; `none` models the
`ValueError` Python raises when the string does not parse. -/
def pyIntOfString (s : String) : Option ℤ :=
  match s.toList with
  | [] => none
  | c :: rest =>
    if c = '-' then (digitsToNat rest).map (fun n => -(n : ℤ))
    else if c = '+' then (digitsToNat rest).map (fun n => (n : ℤ))
    else (digitsToNat (c :: rest)).map (fun n => (n : ℤ))

/-- `2 ^ e` on `ℚ` for an integer exponent, computably. -/
def pow2 (e : ℤ) : ℚ :=
  if 0 ≤ e then ((2 ^ e.toNat : ℕ) : ℚ) else 1 / ((2 ^ (-e).toNat : ℕ) : ℚ)

/-- Fuel-driven halving: with fuel at least `n`, computes the floor of
the binary logarithm of `n` (and `0` for `n = 0` or `n = 1`). -/
def natLog2Aux : ℕ → ℕ → ℕ
  | 0, _ => 0
  | fuel + 1, n => if 2 ≤ n then natLog2Aux fuel (n / 2) + 1 else 0

/-- Floor of the binary logarithm of a natural number (`0` at `0`),
by structural recursion so that concrete instances reduce inside the
kernel; the fuel `n` always suffices since `⌊log₂ n⌋ < n`. -/
def natLog2 (n : ℕ) : ℕ := natLog2Aux n n

/-- Floor of a rational as an integer, via flooring integer division. -/
def ratFloor (q : ℚ) : ℤ := q.num.fdiv q.den

/-- Round a rational to the nearest integer, ties going to the even
neighbour (the IEEE-754 default rounding). -/
def roundHalfEven (q : ℚ) : ℤ :=
  let f := ratFloor q
  let r := q - (f : ℚ)
  if r < 1 / 2 then f
  else if 1 / 2 < r then f + 1
  else if f % 2 = 0 then f else f + 1

/-- The binary exponent of a positive rational: the `e` with
`2 ^ e ≤ q < 2 ^ (e + 1)`, obtained from the integer logarithms of
numerator and denominator with an off-by-one correction. -/
def floatExp (q : ℚ) : ℤ :=
  let a : ℤ := (natLog2 q.num.natAbs : ℤ) - (natLog2 q.den : ℤ)
  if q < pow2 a then a - 1 else if pow2 (a + 1) ≤ q then a + 1 else a

/-- Round a positive rational to 53 significant bits, nearest-even: the
value of the IEEE-754 double nearest to it.  (Normal range only:
overflow and sub-normal underflow do not occur at the magnitudes this
development evaluates.) -/
def roundFloatPos (q : ℚ) : ℚ :=
  (roundHalfEven (q * pow2 (52 - floatExp q)) : ℚ) * pow2 (floatExp q - 52)

/-- The IEEE-754 double nearest to a rational: Python's correctly
rounded conversion of an `int` to `float`, and the rounding applied to
the exact result of each `float` operation. -/
def pyFloat (q : ℚ) : ℚ :=
  if q = 0 then 0
  else if q < 0 then -roundFloatPos (-q) else roundFloatPos q

/-- The decoded record built by `decode_vlayer_proof`
(`hybrid_proof_pipeline_fixed.py`): `balance_wei` is the
arbitrary-precision integer parsed from the last string field, and
`balance_eth` is the Python float `balance_wei / 1e18` computed at
decode time, modelled by `pyFloat`. -/
structure VlayerData where
  notary_fingerprint : ℕ
  method : String
  url : String
  timestamp : ℕ
  queries_hash : ℕ
  balance_wei : ℤ
  balance_eth : ℚ
  zk_proof : String
deriving DecidableEq

/-- `decode_vlayer_proof` from `hybrid_proof_pipeline_fixed.py`:
validates the envelope `success` flag first (Python truthiness: only a
JSON `true` passes), then reads `data.journalDataAbi`, ABI-decodes it
against the fixed schema `(bytes32, string, string, uint256, bytes32,
string)`, parses the last string field with `int()`, computes the float
`balance_eth = balance_wei / 1e18`, and reads `data.zkProof` while
building the result record.  Each failure is the exception the
corresponding Python operation raises. -/
def decode_vlayer_proof (proof : Attestation) : Except DecodeError VlayerData :=
  if proof.success ≠ some true then .error .unverifiedAttestation
  else
    match proof.data with
    | none => .error .malformed
    | some d =>
      match d.journalDataAbi with
      | none => .error .malformed
      | some fields =>
        match fields with
        | [.bytes32 nf, .strF m, .strF u, .uint256 t, .bytes32 qh, .strF bs] =>
          match pyIntOfString bs with
          | none => .error .malformed
          | some bw =>
            match d.zkProof with
            | none => .error .malformed
            | some zp =>
              .ok { notary_fingerprint := nf, method := m, url := u,
                    timestamp := t, queries_hash := qh,
                    balance_wei := bw,
                    balance_eth := pyFloat (pyFloat (bw : ℚ) / 10 ^ 18),
                    zk_proof := zp }
        | _ => .error .schemaMismatch

/-- `np.clip x lo hi`, i.e. `min (max x lo) hi`. -/
def np_clip (x lo hi : ℚ) : ℚ := min (max x lo) hi

/-- `normalize_balance` from `hybrid_proof_pipeline_fixed.py`:
`(balance_eth - 50) / 250` clipped to `[-2.5, 2.5]`.  The float
arithmetic of this line is modelled exactly on `ℚ`, as the spec states
the policy in exact arithmetic. -/
def normalize_balance (balance_eth : ℚ) : ℚ :=
  np_clip ((balance_eth - 50) / 250) (-(5 / 2)) (5 / 2)

/-- The spec's normalization policy, written from its words:
`clamp((quantity − center) / scale, −clampBound, clampBound)`, where
`clamp(x, lo, hi)` raises `x` to at least `lo` and lowers it to at most
`hi`.  Used to compare the source's `normalize_balance` against the
spec. -/
def clampSpec (q center scale bound : ℚ) : ℚ :=
  max (-bound) (min ((q - center) / scale) bound)

/-- The numpy global random state: the seed installed by the last
`np.random.seed` call together with the position reached in the stream
of draws made since seeding.  Each draw of `np.random.randn` is a
deterministic function of this state; the Gaussian value table itself is
kept abstract (a parameter `gauss : seed → position → ℚ`), since no
claim depends on the concrete numbers, only on their reproducibility. -/
structure NpRandomState where
  seed : ℕ
  pos : ℕ
deriving DecidableEq

/-- `np.random.seed n`: overwrites the global state, resetting the
stream position. -/
def np_random_seed (n : ℕ) (_s : NpRandomState) : NpRandomState := ⟨n, 0⟩

/-- `np.random.randn k`: draws `k` values from the stream determined by
the current seed, advancing the position. -/
def np_random_randn (gauss : ℕ → ℕ → ℚ) (k : ℕ) (s : NpRandomState) :
    List ℚ × NpRandomState :=
  ((List.range k).map (fun i => gauss s.seed (s.pos + i)), ⟨s.seed, s.pos + k⟩)

/-- `generate_model_input_with_verified_data` from
`hybrid_proof_pipeline_fixed.py`: feature 0 is the normalized balance,
then `np.random.seed(42)` and `np.random.randn(15)` supply features
1..15.  The ambient numpy state `s` is the implicit global the Python
code reads and writes. -/
def generate_model_input_with_verified_data (gauss : ℕ → ℕ → ℚ)
    (vd : VlayerData) (s : NpRandomState) : List ℚ × NpRandomState :=
  let normalized_balance := normalize_balance vd.balance_eth
  let p := np_random_randn gauss 15 (np_random_seed 42 s)
  (normalized_balance :: p.1, p.2)

/-- Decidable equality of `Except` values, for evaluating concrete runs. -/
instance {ε α : Type} [DecidableEq ε] [DecidableEq α] : DecidableEq (Except ε α) :=
  fun a b =>
    match a, b with
    | .ok x, .ok y =>
      if h : x = y then .isTrue (congrArg Except.ok h)
      else .isFalse (fun hc => h (Except.ok.inj hc))
    | .error x, .error y =>
      if h : x = y then .isTrue (congrArg Except.error h)
      else .isFalse (fun hc => h (Except.error.inj hc))
    | .ok _, .error _ => .isFalse (fun hc => Except.noConfusion hc)
    | .error _, .ok _ => .isFalse (fun hc => Except.noConfusion hc)

/-- Outcomes the external `ezkl` module produces for the three calls
`main` makes in `hybrid_proof_pipeline_fixed.py`: witness generation,
proving, and verification.  An `Except.error` is a raised exception; the
`Bool` of `verifyR` is the value `ezkl.verify` returns. -/
structure EzklService where
  genWitnessR : Except PyErr Unit
  proveR : Except PyErr Unit
  verifyR : Except PyErr Bool
deriving DecidableEq

/-- Observable effects of `main` in `hybrid_proof_pipeline_fixed.py`:
the artifact write of `save_ezkl_input` and the external proving-service
calls, in program order. -/
inductive Effect where
  | writeInput
  | callGenWitness
  | callProve
  | callVerify
deriving DecidableEq

/-- `generate_ezkl_proof` from `hybrid_proof_pipeline_fixed.py`: calls
`ezkl.gen_witness` then `ezkl.prove` inside one `try`; any raised
exception is caught and turned into the return value `False`, and an
exception in witness generation prevents the proving call. -/
def generate_ezkl_proof (svc : EzklService) : List Effect × Bool :=
  match svc.genWitnessR with
  | .error _ => ([.callGenWitness], false)
  | .ok _ =>
    match svc.proveR with
    | .error _ => ([.callGenWitness, .callProve], false)
    | .ok _ => ([.callGenWitness, .callProve], true)

/-- `verify_hybrid_proof` from `hybrid_proof_pipeline_fixed.py`: returns
the boolean `ezkl.verify` produced; any raised exception is caught and
collapsed to `False`. -/
def verify_hybrid_proof (svc : EzklService) : Bool :=
  match svc.verifyR with
  | .error _ => false
  | .ok b => b

/-- Terminal outcome of a completed (non-raising) run of `main`:
overall success, the early return after `generate_ezkl_proof` returned
`False`, or the failure branch after `verify_hybrid_proof` returned
`False`. -/
inductive RunStatus where
  | succeeded
  | failedProofGeneration
  | failedVerification
deriving DecidableEq

/-- `main` from `hybrid_proof_pipeline_fixed.py`: decode, build the
model input (pure), save it, generate the proof, verify.  The result
pairs the trace of effects actually performed with either the uncaught
decode exception or the terminal status; a decode exception aborts the
script before any effect. -/
def main (svc : EzklService) (gauss : ℕ → ℕ → ℚ) (s : NpRandomState)
    (att : Attestation) : List Effect × Except DecodeError RunStatus :=
  match decode_vlayer_proof att with
  | .error e => ([], .error e)
  | .ok vd =>
    let _input_data := generate_model_input_with_verified_data gauss vd s
    let p := generate_ezkl_proof svc
    if p.2 then
      if verify_hybrid_proof svc then
        (.writeInput :: p.1 ++ [.callVerify], .ok .succeeded)
      else
        (.writeInput :: p.1 ++ [.callVerify], .ok .failedVerification)
    else
      (.writeInput :: p.1, .ok .failedProofGeneration)

/-- The two calling conventions `04_setup.py` can use for `ezkl.setup`. -/
inductive Conv where
  | named
  | positional
deriving DecidableEq

/-- The `try`/`except TypeError` block of `main` in `04_setup.py`
(lines 20–34): the named-argument convention is attempted first; a
raised `TypeError` — and only a `TypeError` — triggers exactly one
retry with positional arguments, whose outcome (success or any
exception) is final; any other exception from the first attempt
propagates unretried.  The first component records the calls made. -/
def setup_stage (call : Conv → Except PyErr Bool) :
    List Conv × Except PyErr Bool :=
  match call .named with
  | .error .typeError => ([.named, .positional], call .positional)
  | .error .otherError => ([.named], .error .otherError)
  | .ok r => ([.named], .ok r)

/-- Names of the external proving-service calls made by the stage
scripts `02_settings.py` and `03_compile.py`. -/
inductive SvcCall where
  | genSettings
  | calibrateSettings
  | compileCircuit
deriving DecidableEq

/-- The service call trace of one run of `02_settings.py main` followed
by `03_compile.py main`: each script issues its calls unconditionally in
program order — no artifact store is consulted, no fingerprint is
computed, and no call is ever skipped.  A raised exception aborts the
remainder of the chain. -/
def stage_chain_trace (svc : SvcCall → Except PyErr Unit) : List SvcCall :=
  match svc .genSettings with
  | .error _ => [.genSettings]
  | .ok _ =>
    match svc .calibrateSettings with
    | .error _ => [.genSettings, .calibrateSettings]
    | .ok _ =>
      match svc .compileCircuit with
      | .error _ => [.genSettings, .calibrateSettings, .compileCircuit]
      | .ok _ => [.genSettings, .calibrateSettings, .compileCircuit]

/-- Two consecutive runs of the same stage scripts with unchanged
inputs: the scripts hold no state between runs, so the second run
repeats the first run's calls. -/
def stage_chain_trace_twice (svc : SvcCall → Except PyErr Unit) : List SvcCall :=
  stage_chain_trace svc ++ stage_chain_trace svc

/-- A journal field list that matches the decode schema, carrying the
balance string `bs`. -/
def journalWith (bs : String) : List JournalField :=
  [.bytes32 7, .strF ("GET"), .strF ("https://api.etherscan.io/api"),
   .uint256 1730000000, .bytes32 9, .strF bs]

/-- A well-formed attestation whose balance string is `bs`. -/
def attWith (bs : String) : Attestation :=
  ⟨some true, some ⟨some (journalWith bs), some ("zkproof-bytes")⟩⟩

/-- Well-formed attestation with attested quantity `0` wei. -/
def attZero : Attestation := attWith ("0")

/-- Well-formed attestation with attested quantity `10^18` wei. -/
def attWei18 : Attestation := attWith ("1000000000000000000")

/-- Well-formed attestation with attested quantity `10^18 + 1` wei. -/
def attWei18p1 : Attestation := attWith ("1000000000000000001")

/-- Well-formed attestation whose balance string is negative:
`-10^21` wei, i.e. `-1000` ETH. -/
def attNegative : Attestation := attWith ("-1000000000000000000000")

/-- Attestation whose envelope succeeded but whose `data` object lacks
the `journalDataAbi` payload field. -/
def attMissingPayload : Attestation :=
  ⟨some true, some ⟨none, some ("zkproof-bytes")⟩⟩

/-- The decoded record `decode_vlayer_proof` yields for `attZero`. -/
def vdZero : VlayerData :=
  ⟨7, ("GET"), ("https://api.etherscan.io/api"), 1730000000, 9, 0, 0,
   ("zkproof-bytes")⟩

/-- A minimal well-formed attestation with quantity `0` wei. -/
def attTiny : Attestation :=
  ⟨some true,
   some ⟨some [.bytes32 0, .strF ("g"), .strF ("u"), .uint256 3,
               .bytes32 0, .strF ("0")], some ("z")⟩⟩

/-- The decoded record `decode_vlayer_proof` yields for `attTiny`. -/
def vdTiny : VlayerData := ⟨0, ("g"), ("u"), 3, 0, 0, 0, ("z")⟩

set_option maxRecDepth 100000

/-! Helper lemmas, shared by several claim theorems. -/

/-- Clipping from above after raising from below agrees with raising
from below after clipping from above, whenever the bounds are ordered. -/
theorem min_max_clip_comm (x lo hi : ℚ) (h : lo ≤ hi) :
    min (max x lo) hi = max lo (min x hi) := by
  simp only [min_def, max_def]
  split_ifs <;> linarith

/-- `pow2` is positive. -/
theorem pow2_pos (e : ℤ) : 0 < pow2 e := by
  unfold pow2
  split_ifs
  · positivity
  · positivity

/-- `ratFloor` of a nonnegative rational is nonnegative. -/
theorem ratFloor_nonneg (q : ℚ) (h : 0 ≤ q) : 0 ≤ ratFloor q :=
  Int.fdiv_nonneg (Rat.num_nonneg.mpr h) (Int.ofNat_nonneg q.den)

/-- `roundHalfEven` of a nonnegative rational is nonnegative. -/
theorem roundHalfEven_nonneg (q : ℚ) (h : 0 ≤ q) : 0 ≤ roundHalfEven q := by
  unfold roundHalfEven
  dsimp only
  have hf : 0 ≤ ratFloor q := ratFloor_nonneg q h
  split_ifs <;> omega

/-- `pyFloat` preserves nonnegativity: rounding a nonnegative real to
the nearest double yields a nonnegative double. -/
theorem pyFloat_nonneg (q : ℚ) (h : 0 ≤ q) : 0 ≤ pyFloat q := by
  unfold pyFloat
  split_ifs with h0 hneg
  · exact le_refl 0
  · exact absurd hneg (not_lt.mpr h)
  · unfold roundFloatPos
    have h1 : (0 : ℚ) ≤ (roundHalfEven (q * pow2 (52 - floatExp q)) : ℚ) := by
      exact_mod_cast roundHalfEven_nonneg _ (mul_nonneg h (le_of_lt (pow2_pos _)))
    exact mul_nonneg h1 (le_of_lt (pow2_pos _))

/-- A successfully decoded record carries the float
`balance_wei / 1e18` in its `balance_eth` field. -/
theorem decode_ok_balance_eth (att : Attestation) (vd : VlayerData)
    (h : decode_vlayer_proof att = .ok vd) :
    vd.balance_eth = pyFloat (pyFloat (vd.balance_wei : ℚ) / 10 ^ 18) := by
  unfold decode_vlayer_proof at h
  split at h
  · exact Except.noConfusion h
  · split at h <;> try exact Except.noConfusion h
    split at h <;> try exact Except.noConfusion h
    split at h <;> try exact Except.noConfusion h
    split at h <;> try exact Except.noConfusion h
    split at h <;> try exact Except.noConfusion h
    injection h with h
    subst h
    rfl

/-- For a nonnegative input, `normalize_balance` stays in
`[-1/5, 5/2]`. -/
theorem normalize_balance_nonneg_bounds (b : ℚ) (h : 0 ≤ b) :
    -(1 / 5) ≤ normalize_balance b ∧ normalize_balance b ≤ 5 / 2 := by
  unfold normalize_balance np_clip
  constructor
  · have hx : -(1 / 5) ≤ (b - 50) / 250 := by
      rw [le_div_iff₀ (by norm_num : (0 : ℚ) < 250)]
      linarith
    exact le_min (le_trans hx (le_max_left _ _)) (by norm_num)
  · exact min_le_right _ _

/-! The claim theorems. -/

/-- C1 (counterexample): the Settings and Compile stage scripts hold no
artifact store and skip nothing — running the chain a second time with
unchanged inputs re-issues all three external-service calls, so the
second run makes three additional calls, not zero. -/
theorem stage_chain_second_run_repeats_calls :
    stage_chain_trace_twice (fun _ => .ok ())
      = [.genSettings, .calibrateSettings, .compileCircuit,
         .genSettings, .calibrateSettings, .compileCircuit]
    ∧ (stage_chain_trace_twice (fun _ => .ok ())).length
        = (stage_chain_trace (fun _ => .ok ())).length + 3
    ∧ (stage_chain_trace (fun _ => .ok ())).length + 3
        ≠ (stage_chain_trace (fun _ => .ok ())).length := by
  refine ⟨by decide, by decide, by decide⟩

/-- C1 (amended): the stage scripts are deterministic but uncached — a
second run with unchanged inputs repeats exactly the nonempty call
sequence of the first run, whatever the service outcomes are. -/
theorem stage_chain_rerun_identical_calls (svc : SvcCall → Except PyErr Unit) :
    stage_chain_trace_twice svc = stage_chain_trace svc ++ stage_chain_trace svc
    ∧ stage_chain_trace svc ≠ [] := by
  refine ⟨rfl, ?_⟩
  unfold stage_chain_trace
  split <;> try simp
  split <;> try simp
  split <;> simp

/-- C2: feature 0 of the built vector is `normalize_balance` of the
decoded quantity; `normalize_balance` agrees with the spec's clamp
formula at the configured constants `center = 50`, `scale = 250`,
`clampBound = 5/2`; it is monotone in the quantity; and outside the
configured range it is exactly `±5/2` — a hard clamp. -/
theorem normalize_balance_clamp_correct (q q' : ℚ) (gauss : ℕ → ℕ → ℚ)
    (vd : VlayerData) (s : NpRandomState) :
    (generate_model_input_with_verified_data gauss vd s).1.headI
        = normalize_balance vd.balance_eth
    ∧ normalize_balance q = clampSpec q 50 250 (5 / 2)
    ∧ (q ≤ q' → normalize_balance q ≤ normalize_balance q')
    ∧ (50 + 250 * (5 / 2) ≤ q → normalize_balance q = 5 / 2)
    ∧ (q ≤ 50 - 250 * (5 / 2) → normalize_balance q = -(5 / 2)) := by
  refine ⟨rfl, ?_, ?_, ?_, ?_⟩
  · unfold normalize_balance np_clip clampSpec
    exact min_max_clip_comm _ _ _ (by norm_num)
  · intro h
    unfold normalize_balance np_clip
    have hx : (q - 50) / 250 ≤ (q' - 50) / 250 := by linarith
    exact min_le_min (max_le_max hx le_rfl) le_rfl
  · intro h
    unfold normalize_balance np_clip
    have hx : (5 : ℚ) / 2 ≤ (q - 50) / 250 := by
      rw [le_div_iff₀ (by norm_num : (0 : ℚ) < 250)]
      linarith
    exact min_eq_right (le_trans hx (le_max_left _ _))
  · intro h
    unfold normalize_balance np_clip
    have hx : (q - 50) / 250 ≤ -(5 / 2) := by
      rw [div_le_iff₀ (by norm_num : (0 : ℚ) < 250)]
      linarith
    rw [max_eq_right hx]
    exact min_eq_left (by norm_num)

/-- C2 (witness): at a quantity far above the configured range, feature
0 is exactly the clamp bound. -/
theorem normalize_balance_clamp_correct_witness :
    normalize_balance 1000 = 5 / 2 :=
  (normalize_balance_clamp_correct 1000 1000 (fun _ _ => 0) vdZero ⟨0, 0⟩).2.2.2.1
    (by with_unfolding_all decide)

/-- C3: the setup stage retries with the positional convention exactly
when the named call raises a signature mismatch, and then exactly once —
the fallback's outcome, failure included, is final; a computation
failure of the named call propagates without any retry; a successful
named call is never followed by a second call. -/
theorem setup_signature_fallback (call : Conv → Except PyErr Bool) :
    (call .named = .error .typeError →
      setup_stage call = ([.named, .positional], call .positional))
    ∧ (call .named = .error .otherError →
      setup_stage call = ([.named], .error .otherError))
    ∧ (∀ r, call .named = .ok r → setup_stage call = ([.named], .ok r)) := by
  refine ⟨?_, ?_, ?_⟩
  · intro h
    unfold setup_stage
    rw [h]
  · intro h
    unfold setup_stage
    rw [h]
  · intro r h
    unfold setup_stage
    rw [h]

/-- C3 (witness): a fixture where both conventions fail surfaces the
fallback's fatal error after exactly the two calls, never a silent
success. -/
theorem setup_signature_fallback_witness :
    setup_stage
        (fun c => match c with
          | .named => .error .typeError
          | .positional => .error .otherError)
      = ([.named, .positional], .error .otherError) :=
  (setup_signature_fallback
      (fun c => match c with
        | .named => .error .typeError
        | .positional => .error .otherError)).1 rfl

/-- C4: `decode_vlayer_proof` validates the envelope success flag
first — whenever the flag is not `true` (false or absent), it fails
with the unverified-attestation error, and the result is independent of
the payload, so no payload parsing has happened.  (As embedded, decode
is a pure function of the attestation value: it cannot mutate its
input.) -/
theorem decode_validates_success_first (s : Option Bool)
    (d d' : Option ProofData) (h : s ≠ some true) :
    decode_vlayer_proof ⟨s, d⟩ = .error .unverifiedAttestation
    ∧ decode_vlayer_proof ⟨s, d⟩ = decode_vlayer_proof ⟨s, d'⟩ := by
  unfold decode_vlayer_proof
  simp [h]

/-- C4 (witness): an envelope with `success = false` is rejected as
unverified, and the rejection does not look at the payload. -/
theorem decode_validates_success_first_witness :
    decode_vlayer_proof ⟨some false, some ⟨some (journalWith ("0")), some ("zk")⟩⟩
        = .error .unverifiedAttestation
    ∧ decode_vlayer_proof ⟨some false, some ⟨some (journalWith ("0")), some ("zk")⟩⟩
        = decode_vlayer_proof ⟨some false, none⟩ :=
  decode_validates_success_first (some false)
    (some ⟨some (journalWith ("0")), some ("zk")⟩) none (by decide)

/-- C5 (counterexample): a run whose Verify call returns `false` and a
run whose Verify call raises are indistinguishable — `main` produces the
identical trace and terminal outcome for both, because
`verify_hybrid_proof` catches the exception and collapses it to the
same boolean `false`. -/
theorem verify_rejection_indistinguishable :
    main ⟨.ok (), .ok (), .ok false⟩ (fun _ _ => 0) ⟨0, 0⟩ attZero
      = main ⟨.ok (), .ok (), .error .otherError⟩ (fun _ _ => 0) ⟨0, 0⟩ attZero
    ∧ (main ⟨.ok (), .ok (), .ok false⟩ (fun _ _ => 0) ⟨0, 0⟩ attZero).2
      = .ok .failedVerification := by
  refine ⟨by with_unfolding_all decide, by with_unfolding_all decide⟩

/-- C5 (amended): a run reaches the succeeded outcome only if the
Verify call returned a positive result; but a negative verification
result is not structurally distinguishable from an exception-like
verification failure — `main` maps both to the same outcome. -/
theorem succeeded_requires_positive_verification (svc : EzklService)
    (gauss : ℕ → ℕ → ℚ) (s : NpRandomState) (att : Attestation)
    (gw pr : Except PyErr Unit) (e : PyErr) :
    ((main svc gauss s att).2 = .ok .succeeded → svc.verifyR = .ok true)
    ∧ main ⟨gw, pr, .ok false⟩ gauss s att
        = main ⟨gw, pr, .error e⟩ gauss s att := by
  constructor
  · intro h
    obtain ⟨gwv, prv, vrv⟩ := svc
    unfold main at h
    split at h
    · exact Except.noConfusion h
    · rcases gwv with e1 | u1
      · simp [generate_ezkl_proof] at h
      · rcases prv with e2 | u2
        · simp [generate_ezkl_proof] at h
        · rcases vrv with e3 | b3
          · simp [generate_ezkl_proof, verify_hybrid_proof] at h
          · cases b3
            · simp [generate_ezkl_proof, verify_hybrid_proof] at h
            · rfl
  · rfl

/-- C5 (witness): a run against a service whose Verify call returns
`true` has a positively verified service result. -/
theorem succeeded_requires_positive_verification_witness :
    (⟨.ok (), .ok (), .ok true⟩ : EzklService).verifyR = .ok true :=
  (succeeded_requires_positive_verification ⟨.ok (), .ok (), .ok true⟩
      (fun _ _ => 0) ⟨0, 0⟩ attZero (.ok ()) (.ok ()) .otherError).1
    (by with_unfolding_all decide)

/-- C6: when decoding fails, `main` terminates with that decode error
and an empty effect trace — no input artifact is written and no external
proving-service call is made. -/
theorem decode_failure_aborts_before_stages (svc : EzklService)
    (gauss : ℕ → ℕ → ℚ) (s : NpRandomState) (att : Attestation)
    (e : DecodeError) (h : decode_vlayer_proof att = .error e) :
    main svc gauss s att = ([], .error e) := by
  unfold main
  rw [h]

/-- C6 (witness): an attestation missing the payload field makes the
run fail at decoding with the malformed error, with no artifact created
and no service call made. -/
theorem decode_failure_aborts_before_stages_witness :
    main ⟨.ok (), .ok (), .ok true⟩ (fun _ _ => 0) ⟨0, 0⟩ attMissingPayload
      = ([], .error .malformed) :=
  decode_failure_aborts_before_stages ⟨.ok (), .ok (), .ok true⟩
    (fun _ _ => 0) ⟨0, 0⟩ attMissingPayload .malformed (by decide)

/-- C7 (counterexample): decode does produce a floating-point
representation of the attested quantity — the `balance_eth` field — and
it loses precision before normalization: the distinct attested
quantities `10^18` and `10^18 + 1` wei decode to records with different
`balance_wei` but identical `balance_eth` (both exactly `1.0`). -/
theorem decode_float_precision_loss :
    (decode_vlayer_proof attWei18).map (fun v => v.balance_wei)
      ≠ (decode_vlayer_proof attWei18p1).map (fun v => v.balance_wei)
    ∧ (decode_vlayer_proof attWei18).map (fun v => v.balance_eth)
      = (decode_vlayer_proof attWei18p1).map (fun v => v.balance_eth)
    ∧ (decode_vlayer_proof attWei18p1).map (fun v => v.balance_eth)
      = .ok 1 := by
  refine ⟨by with_unfolding_all decide, by with_unfolding_all decide,
    by with_unfolding_all decide⟩

/-- C7 (amended): decode parses the string-encoded quantity into the
arbitrary-precision integer `balance_wei` — exactly the value `int()`
yields, with no rounding — but additionally computes the double
`balance_eth = float(balance_wei) / 1e18` at decode time. -/
theorem decode_parses_integer_exactly (nf : ℕ) (m u : String) (t qh : ℕ)
    (bs zp : String) (n : ℤ) (h : pyIntOfString bs = some n) :
    decode_vlayer_proof
        ⟨some true,
         some ⟨some [.bytes32 nf, .strF m, .strF u, .uint256 t,
                     .bytes32 qh, .strF bs], some zp⟩⟩
      = .ok ⟨nf, m, u, t, qh, n, pyFloat (pyFloat (n : ℚ) / 10 ^ 18), zp⟩ := by
  unfold decode_vlayer_proof
  simp [h]

/-- C7 (amended, witness): the quantity string of `10^18 + 1` wei is
parsed to exactly that integer. -/
theorem decode_parses_integer_exactly_witness :
    decode_vlayer_proof
        ⟨some true,
         some ⟨some [.bytes32 7, .strF ("GET"),
                     .strF ("https://api.etherscan.io/api"),
                     .uint256 1730000000, .bytes32 9,
                     .strF ("1000000000000000001")],
               some ("zkproof-bytes")⟩⟩
      = .ok ⟨7, ("GET"), ("https://api.etherscan.io/api"), 1730000000, 9,
             1000000000000000001,
             pyFloat (pyFloat ((1000000000000000001 : ℤ) : ℚ) / 10 ^ 18),
             ("zkproof-bytes")⟩ :=
  decode_parses_integer_exactly 7 ("GET") ("https://api.etherscan.io/api")
    1730000000 9 ("1000000000000000001") ("zkproof-bytes")
    1000000000000000001 (by decide)

/-- C8: an attestation with `success = true` and decoded quantity `0`
yields feature 0 exactly `(0 − 50) / 250 = −1/5`, strictly inside the
clamp range, with the clip a no-op. -/
theorem feature0_zero_quantity_exact :
    (decode_vlayer_proof attZero).map
        (fun v =>
          (generate_model_input_with_verified_data (fun _ _ => 0) v ⟨0, 0⟩).1.headI)
      = .ok (-(1 / 5))
    ∧ normalize_balance 0 = ((0 : ℚ) - 50) / 250
    ∧ ((0 : ℚ) - 50) / 250 = -(1 / 5)
    ∧ -(5 / 2) < -(1 / 5 : ℚ)
    ∧ -(1 / 5 : ℚ) < 5 / 2 := by
  refine ⟨by with_unfolding_all decide, by with_unfolding_all decide,
    by with_unfolding_all decide, by with_unfolding_all decide,
    by with_unfolding_all decide⟩

/-- C9: building the feature vector is deterministic — the result does
not depend on the ambient numpy random state, because the builder
re-seeds with `42` before drawing; the vector always has 16 entries,
entry 0 is the normalized quantity, and entries 1..15 are the
reproducible seed-42 stream. -/
theorem feature_build_deterministic (gauss : ℕ → ℕ → ℚ) (vd : VlayerData)
    (s s' : NpRandomState) :
    (generate_model_input_with_verified_data gauss vd s).1
      = (generate_model_input_with_verified_data gauss vd s').1
    ∧ (generate_model_input_with_verified_data gauss vd s).1.length = 16
    ∧ (generate_model_input_with_verified_data gauss vd s).1.headI
      = normalize_balance vd.balance_eth
    ∧ (generate_model_input_with_verified_data gauss vd s).1.tail
      = (List.range 15).map (fun i => gauss 42 i) := by
  refine ⟨rfl, ?_, rfl, ?_⟩
  · simp [generate_model_input_with_verified_data, np_random_randn]
  · simp [generate_model_input_with_verified_data, np_random_randn,
      np_random_seed]

/-- C10 (counterexample): the attested quantity is parsed from a string
field by `int()`, which accepts negative values — an attestation whose
quantity string is `-10^21` wei decodes successfully, and its feature 0
is exactly the lower clamp bound `-5/2`, which was claimed
unreachable. -/
theorem negative_quantity_reaches_lower_clamp :
    (decode_vlayer_proof attNegative).map (fun v => v.balance_wei)
      = .ok (-(10 ^ 21))
    ∧ (decode_vlayer_proof attNegative).map
        (fun v => normalize_balance v.balance_eth)
      = .ok (-(5 / 2)) := by
  refine ⟨by with_unfolding_all decide, by with_unfolding_all decide⟩

/-- C10 (amended): for every successfully decoded attestation whose
quantity is nonnegative, feature 0 lies in `[-1/5, 5/2]` — the lower
clamp bound is unreachable only on that nonnegative sub-domain. -/
theorem feature0_bounds_for_nonneg_quantity (att : Attestation)
    (vd : VlayerData) (h : decode_vlayer_proof att = .ok vd)
    (hw : 0 ≤ vd.balance_wei) :
    -(1 / 5) ≤ normalize_balance vd.balance_eth
    ∧ normalize_balance vd.balance_eth ≤ 5 / 2 := by
  have he : vd.balance_eth = pyFloat (pyFloat (vd.balance_wei : ℚ) / 10 ^ 18) :=
    decode_ok_balance_eth att vd h
  have hnn : 0 ≤ vd.balance_eth := by
    rw [he]
    refine pyFloat_nonneg _ (div_nonneg (pyFloat_nonneg _ ?_) (by positivity))
    exact_mod_cast hw
  exact normalize_balance_nonneg_bounds _ hnn

/-- C10 (amended, witness): the zero-quantity attestation decodes
successfully with a nonnegative quantity, and its feature 0 is within
the bounds. -/
theorem feature0_bounds_for_nonneg_quantity_witness :
    -(1 / 5) ≤ normalize_balance vdTiny.balance_eth
    ∧ normalize_balance vdTiny.balance_eth ≤ 5 / 2 :=
  feature0_bounds_for_nonneg_quantity attTiny vdTiny
    (by with_unfolding_all decide) (by decide)

end Redfish
